import Mathlib

/-!
Verification development for the `zeam` validation scripts
(`validate_beam_state_hash.py` and `debug_simple_hash.py`).

The two scripts construct typed sample values (containers, lists, bitlists)
and call the external leanSpec library's `hash_tree_root` to compare the
resulting digest against a literal taken from a separate Zig implementation.
The SSZ serialization/Merkleization engine itself is not part of the
repository; it is modelled here from the specification (primitive codec,
chunking, zero-hash table, lazy Merkleization, length mix-in, and the
SHA-256 pair-hash primitive the SSZ scheme fixes).

Bytes are modelled as `List Nat` with each element in `[0, 256)`; 32-bit
words are `Nat` reduced modulo `2 ^ 32` at every operation.
-/

abbrev Bytes := List Nat

/-- Modelled from the spec: the fixed hashing primitive of the Merkleizer is
SHA-256 (the hash fixed by the SSZ scheme the spec names); 32-bit modular
addition. -/
def add32 (a b : Nat) : Nat := (a + b) % 4294967296

/-- Modelled from the spec: 32-bit right rotation for SHA-256. -/
def rotr32 (x n : Nat) : Nat := ((x >>> n) ||| (x <<< (32 - n))) % 4294967296

/-- Modelled from the spec: SHA-256 message-schedule sigma0. -/
def smallS0 (x : Nat) : Nat := (rotr32 x 7) ^^^ (rotr32 x 18) ^^^ (x >>> 3)

/-- Modelled from the spec: SHA-256 message-schedule sigma1. -/
def smallS1 (x : Nat) : Nat := (rotr32 x 17) ^^^ (rotr32 x 19) ^^^ (x >>> 10)

/-- Modelled from the spec: SHA-256 compression Sigma0. -/
def bigS0 (x : Nat) : Nat := (rotr32 x 2) ^^^ (rotr32 x 13) ^^^ (rotr32 x 22)

/-- Modelled from the spec: SHA-256 compression Sigma1. -/
def bigS1 (x : Nat) : Nat := (rotr32 x 6) ^^^ (rotr32 x 11) ^^^ (rotr32 x 25)

/-- Modelled from the spec: SHA-256 choice function. -/
def chF (x y z : Nat) : Nat := (x &&& y) ^^^ ((x ^^^ 4294967295) &&& z)

/-- Modelled from the spec: SHA-256 majority function. -/
def majF (x y z : Nat) : Nat := (x &&& y) ^^^ (x &&& z) ^^^ (y &&& z)

/-- Modelled from the spec: SHA-256 round constants. -/
def kConsts : List Nat :=
  [1116352408, 1899447441, 3049323471, 3921009573, 961987163, 1508970993,
   2453635748, 2870763221, 3624381080, 310598401, 607225278, 1426881987,
   1925078388, 2162078206, 2614888103, 3248222580, 3835390401, 4022224774,
   264347078, 604807628, 770255983, 1249150122, 1555081692, 1996064986,
   2554220882, 2821834349, 2952996808, 3210313671, 3336571891, 3584528711,
   113926993, 338241895, 666307205, 773529912, 1294757372, 1396182291,
   1695183700, 1986661051, 2177026350, 2456956037, 2730485921, 2820302411,
   3259730800, 3345764771, 3516065817, 3600352804, 4094571909, 275423344,
   430227734, 506948616, 659060556, 883997877, 958139571, 1322822218,
   1537002063, 1747873779, 1955562222, 2024104815, 2227730452, 2361852424,
   2428436474, 2756734187, 3204031479, 3329325298]

/-- Modelled from the spec: SHA-256 working state (eight 32-bit words). -/
structure Sha2State where
  a : Nat
  b : Nat
  c : Nat
  d : Nat
  e : Nat
  f : Nat
  g : Nat
  h : Nat

/-- Modelled from the spec: SHA-256 initial hash state. -/
def initState : Sha2State :=
  ⟨1779033703, 3144134277, 1013904242, 2773480762, 1359893119, 2600822924, 528734635, 1541459225⟩

/-- Modelled from the spec: one SHA-256 round; `kw` is `K[t] + W[t] mod 2^32`. -/
def roundStep (st : Sha2State) (kw : Nat) : Sha2State :=
  let t1 := add32 (add32 (add32 st.h (bigS1 st.e)) (chF st.e st.f st.g)) kw
  let t2 := add32 (bigS0 st.a) (majF st.a st.b st.c)
  ⟨add32 t1 t2, st.a, st.b, st.c, add32 st.d t1, st.e, st.f, st.g⟩

/-- Modelled from the spec: word-wise modular addition of two SHA-256 states. -/
def addStates (x y : Sha2State) : Sha2State :=
  ⟨add32 x.a y.a, add32 x.b y.b, add32 x.c y.c, add32 x.d y.d,
   add32 x.e y.e, add32 x.f y.f, add32 x.g y.g, add32 x.h y.h⟩

/-- Modelled from the spec: read a schedule word, zero out of range. -/
def wAt (w : List Nat) (i : Nat) : Nat := w.getD i 0

/-- Modelled from the spec: extend the 16 message words to the full
64-word SHA-256 schedule, one word per step. -/
def extendSchedule : Nat → List Nat → List Nat
  | 0, w => w
  | n + 1, w =>
      extendSchedule n (w ++ [add32 (add32 (smallS1 (wAt w (w.length - 2))) (wAt w (w.length - 7)))
                               (add32 (smallS0 (wAt w (w.length - 15))) (wAt w (w.length - 16)))])

/-- Modelled from the spec: SHA-256 compression of one 16-word block. -/
def compressBlock (st : Sha2State) (blockWords : List Nat) : Sha2State :=
  let kws := List.zipWith add32 kConsts (extendSchedule 48 blockWords)
  addStates st (kws.foldl roundStep st)

/-- Modelled from the spec: big-endian 4-byte rendering of a 32-bit word. -/
def wordBytesBE (w : Nat) : Bytes :=
  [(w >>> 24) % 256, (w >>> 16) % 256, (w >>> 8) % 256, w % 256]

/-- Modelled from the spec: the 32-byte output of a final SHA-256 state. -/
def stateToBytes (st : Sha2State) : Bytes :=
  wordBytesBE st.a ++ wordBytesBE st.b ++ wordBytesBE st.c ++ wordBytesBE st.d ++
  wordBytesBE st.e ++ wordBytesBE st.f ++ wordBytesBE st.g ++ wordBytesBE st.h

/-- Modelled from the spec: big-endian 8-byte rendering of the bit length. -/
def lenBytesBE (n : Nat) : Bytes :=
  [(n >>> 56) % 256, (n >>> 48) % 256, (n >>> 40) % 256, (n >>> 32) % 256,
   (n >>> 24) % 256, (n >>> 16) % 256, (n >>> 8) % 256, n % 256]

/-- Modelled from the spec: SHA-256 padding (0x80, zeros, 64-bit length). -/
def padMsg (msg : Bytes) : Bytes :=
  let len := msg.length
  let zeros := (64 - ((len + 9) % 64)) % 64
  msg ++ 128 :: List.replicate zeros 0 ++ lenBytesBE (len * 8)

/-- Modelled from the spec: group bytes into big-endian 32-bit words. -/
def toWordsBE : Bytes → List Nat
  | b0 :: b1 :: b2 :: b3 :: rest =>
      ((((b0 <<< 8) ||| b1) <<< 8 ||| b2) <<< 8 ||| b3) :: toWordsBE rest
  | _ => []

/-- Modelled from the spec: group words into 16-word SHA-256 blocks. -/
def toBlocks : List Nat → List (List Nat)
  | w0 :: w1 :: w2 :: w3 :: w4 :: w5 :: w6 :: w7 ::
    w8 :: w9 :: w10 :: w11 :: w12 :: w13 :: w14 :: w15 :: rest =>
      [w0, w1, w2, w3, w4, w5, w6, w7, w8, w9, w10, w11, w12, w13, w14, w15] :: toBlocks rest
  | _ => []

/-- Modelled from the spec: full SHA-256 digest of a byte sequence. -/
def sha256 (msg : Bytes) : Bytes :=
  stateToBytes ((toBlocks (toWordsBE (padMsg msg))).foldl compressBlock initState)

/-- Modelled from the spec: the Merkleizer's two-chunk hashing primitive,
`hash(left, right) = SHA-256(left ++ right)`. -/
def sha256Pair (x y : Bytes) : Bytes := sha256 (x ++ y)

/-- Modelled from the spec: little-endian fixed-width byte rendering of an
unsigned integer (`n` bytes). -/
def littleEndianBytes : Nat → Nat → Bytes
  | 0, _ => []
  | k + 1, v => v % 256 :: littleEndianBytes k (v / 256)

/-- Modelled from the spec: the 32-byte chunk of a `Uint64` leaf
(8 little-endian bytes, zero-padded to a chunk). -/
def uint64Chunk (v : Nat) : Bytes := littleEndianBytes 8 v ++ List.replicate 24 0

/-- Modelled from the spec: the 32-byte chunk of a `Uint32` leaf
(4 little-endian bytes, zero-padded to a chunk). -/
def uint32Chunk (v : Nat) : Bytes := littleEndianBytes 4 v ++ List.replicate 28 0

/-- Modelled from the spec: the zero-hash table, `Z[0]` the all-zero chunk
and `Z[i+1] = hash(Z[i], Z[i])`. -/
def zeroHash (hp : Bytes → Bytes → Bytes) : Nat → Bytes
  | 0 => List.replicate 32 0
  | n + 1 => let z := zeroHash hp n; hp z z

/-- Modelled from the spec: one bottom-up Merkleization level; adjacent
chunks are paired and an odd leftover pairs with the level's zero hash. -/
def merkLevel (hp : Bytes → Bytes → Bytes) (z : Bytes) : List Bytes → List Bytes
  | a :: b :: rest => hp a b :: merkLevel hp z rest
  | [a] => [hp a z]
  | [] => []

/-- Modelled from the spec: reduce `steps` levels starting at tree level
`level`, padding lazily with the zero-hash table; an empty sequence roots
to the zero hash of the top level. -/
def merkleizeFrom (hp : Bytes → Bytes → Bytes) (level : Nat) : Nat → List Bytes → Bytes
  | 0, cs => cs.headD (zeroHash hp level)
  | steps + 1, cs => merkleizeFrom hp (level + 1) steps (merkLevel hp (zeroHash hp level) cs)

/-- Modelled from the spec: `merkleize(chunks, depth)` — build the binary
hash tree over `2 ^ depth` leaf slots, padding lazily with zero hashes. -/
def merkleize (hp : Bytes → Bytes → Bytes) (cs : List Bytes) (depth : Nat) : Bytes :=
  merkleizeFrom hp 0 depth cs

/-- Modelled from the spec: fuel-driven `ceil(log2 n)` (`0` when `n ≤ 1`). -/
def ceilLog2F : Nat → Nat → Nat
  | 0, _ => 0
  | fuel + 1, n => if n ≤ 1 then 0 else ceilLog2F fuel ((n + 1) / 2) + 1

/-- Modelled from the spec: `ceil(log2 n)`, the tree depth for `n` slots. -/
def ceilLog2 (n : Nat) : Nat := ceilLog2F n n

/-- Modelled from the spec: mix the element count into a content root as its
right sibling, the count rendered as an 8-byte little-endian value padded to
a full 32-byte chunk. -/
def mixLength (hp : Bytes → Bytes → Bytes) (root : Bytes) (len : Nat) : Bytes :=
  hp root (littleEndianBytes 8 len ++ List.replicate 24 0)

/-- Modelled from the spec: `hash_tree_root` of a `List[Bytes32, LIMIT]` —
each element is its own chunk, Merkleized at depth `ceil(log2 LIMIT)` with
the element count mixed in. -/
def listRootBytes32 (hp : Bytes → Bytes → Bytes) (elems : List Bytes) (limit : Nat) : Bytes :=
  mixLength hp (merkleize hp elems (ceilLog2 limit)) elems.length

/-- Modelled from the spec: the value of a bit sequence read LSB-first. -/
def bitsVal : List Bool → Nat
  | [] => 0
  | b :: rest => (if b then 1 else 0) + 2 * bitsVal rest

/-- Modelled from the spec: pack bits into bytes, 8 per byte, LSB-first. -/
def bitsToBytes (bits : List Bool) : Bytes :=
  littleEndianBytes ((bits.length + 7) / 8) (bitsVal bits)

/-- Modelled from the spec: a chunk zero-padded to its full 32 bytes. -/
def padChunk (c : Bytes) : Bytes := c ++ List.replicate (32 - c.length) 0

/-- Modelled from the spec: group bytes into 32-byte chunks (fuel-driven),
zero-padding the final chunk. -/
def bytesToChunksF : Nat → Bytes → List Bytes
  | 0, _ => []
  | _, [] => []
  | fuel + 1, l => padChunk (l.take 32) :: bytesToChunksF fuel (l.drop 32)

/-- Modelled from the spec: group bytes into 32-byte chunks. -/
def bytesToChunks (l : Bytes) : List Bytes := bytesToChunksF l.length l

/-- Modelled from the spec: `hash_tree_root` of a `Bitlist[LIMIT]` — bits are
packed into chunks at the bit level, the depth comes from
`ceil(LIMIT / 256)` chunk slots, and the bit count is mixed in. -/
def bitlistRoot (hp : Bytes → Bytes → Bytes) (bits : List Bool) (limit : Nat) : Bytes :=
  mixLength hp (merkleize hp (bytesToChunks (bitsToBytes bits)) (ceilLog2 ((limit + 255) / 256)))
    bits.length

/-! ## Data model of the two scripts

Each Python `Container` subclass becomes a structure; each class's
`hash_tree_root` behaviour becomes an `htr` function over the modelled
engine, parameterized by the Merkleizer's pair-hash primitive `hp`. -/

/-- Constant from `validate_beam_state_hash.py`: `1 << 12 = 4096`. -/
def VALIDATOR_REGISTRY_LIMIT : Nat := 1 <<< 12

/-- Constant from `validate_beam_state_hash.py`: `1 << 18 = 262144`. -/
def HISTORICAL_ROOTS_LIMIT : Nat := 1 <<< 18

/-- Field-type tags for flat container schemas. -/
inductive FieldTy
  | u64
  | u32
  | b32
deriving DecidableEq

/-- Container `SimpleTest` of `debug_simple_hash.py`. -/
structure SimpleTest where
  slot : Nat
  proposer_index : Nat

/-- Container `ConfigTest` of `debug_simple_hash.py`. -/
structure ConfigTest where
  num_validators : Nat
  genesis_time : Nat

/-- Container `BlockHeaderTest` of `debug_simple_hash.py`. -/
structure BlockHeaderTest where
  slot : Nat
  proposer_index : Nat
  parent_root : Bytes
  state_root : Bytes
  body_root : Bytes

/-- Container `CheckpointTest` of `debug_simple_hash.py`. -/
structure CheckpointTest where
  root : Bytes
  slot : Nat

/-- Container `BeamStateConfig` of `validate_beam_state_hash.py`. -/
structure BeamStateConfig where
  num_validators : Nat
  genesis_time : Nat

/-- Container `BeamBlockHeader` of `validate_beam_state_hash.py`. -/
structure BeamBlockHeader where
  slot : Nat
  proposer_index : Nat
  parent_root : Bytes
  state_root : Bytes
  body_root : Bytes

/-- Container `Mini3SFCheckpoint` of `validate_beam_state_hash.py`. -/
structure Mini3SFCheckpoint where
  root : Bytes
  slot : Nat

/-- Container `BeamState` of `validate_beam_state_hash.py`. -/
structure BeamState where
  config : BeamStateConfig
  slot : Nat
  latest_block_header : BeamBlockHeader
  latest_justified : Mini3SFCheckpoint
  latest_finalized : Mini3SFCheckpoint
  historical_block_hashes : List Bytes
  justified_slots : List Bool
  justifications_roots : List Bytes
  justifications_validators : List Bool

/-- Declared field schema of `SimpleTest`. -/
def SimpleTestSchema : List (String × FieldTy) :=
  [("slot", FieldTy.u64), ("proposer_index", FieldTy.u32)]

/-- Declared field schema of `ConfigTest`. -/
def ConfigTestSchema : List (String × FieldTy) :=
  [("num_validators", FieldTy.u32), ("genesis_time", FieldTy.u64)]

/-- Declared field schema of `BlockHeaderTest`. -/
def BlockHeaderTestSchema : List (String × FieldTy) :=
  [("slot", FieldTy.u64), ("proposer_index", FieldTy.u32), ("parent_root", FieldTy.b32),
   ("state_root", FieldTy.b32), ("body_root", FieldTy.b32)]

/-- Declared field schema of `CheckpointTest`. -/
def CheckpointTestSchema : List (String × FieldTy) :=
  [("root", FieldTy.b32), ("slot", FieldTy.u64)]

/-- Declared field schema of `BeamStateConfig`. -/
def BeamStateConfigSchema : List (String × FieldTy) :=
  [("num_validators", FieldTy.u32), ("genesis_time", FieldTy.u64)]

/-- Declared field schema of `BeamBlockHeader`. -/
def BeamBlockHeaderSchema : List (String × FieldTy) :=
  [("slot", FieldTy.u64), ("proposer_index", FieldTy.u32), ("parent_root", FieldTy.b32),
   ("state_root", FieldTy.b32), ("body_root", FieldTy.b32)]

/-- Declared field schema of `Mini3SFCheckpoint`. -/
def Mini3SFCheckpointSchema : List (String × FieldTy) :=
  [("root", FieldTy.b32), ("slot", FieldTy.u64)]

/-- LIMIT of `JustifiedSlotsBitlist` (`HISTORICAL_ROOTS_LIMIT`). -/
def JustifiedSlotsBitlist.LIMIT : Nat := HISTORICAL_ROOTS_LIMIT

/-- LIMIT of `JustificationsValidatorsBitlist` (`VALIDATOR_REGISTRY_LIMIT`). -/
def JustificationsValidatorsBitlist.LIMIT : Nat := VALIDATOR_REGISTRY_LIMIT

/-- LIMIT of `HistoricalBlockHashesList` (`HISTORICAL_ROOTS_LIMIT`). -/
def HistoricalBlockHashesList.LIMIT : Nat := HISTORICAL_ROOTS_LIMIT

/-- LIMIT of `JustificationsRootsList` (`HISTORICAL_ROOTS_LIMIT`). -/
def JustificationsRootsList.LIMIT : Nat := HISTORICAL_ROOTS_LIMIT

/-- Root function `hash_tree_root` of a `SimpleTest` instance: Merkleization of the two
field chunks in declared order. -/
def SimpleTest.htr (hp : Bytes → Bytes → Bytes) (x : SimpleTest) : Bytes :=
  merkleize hp [uint64Chunk x.slot, uint32Chunk x.proposer_index] (ceilLog2 2)

/-- Root function `hash_tree_root` of a `ConfigTest` instance. -/
def ConfigTest.htr (hp : Bytes → Bytes → Bytes) (x : ConfigTest) : Bytes :=
  merkleize hp [uint32Chunk x.num_validators, uint64Chunk x.genesis_time] (ceilLog2 2)

/-- Root function `hash_tree_root` of a `BlockHeaderTest` instance. -/
def BlockHeaderTest.htr (hp : Bytes → Bytes → Bytes) (x : BlockHeaderTest) : Bytes :=
  merkleize hp [uint64Chunk x.slot, uint32Chunk x.proposer_index, x.parent_root,
    x.state_root, x.body_root] (ceilLog2 5)

/-- Root function `hash_tree_root` of a `CheckpointTest` instance. -/
def CheckpointTest.htr (hp : Bytes → Bytes → Bytes) (x : CheckpointTest) : Bytes :=
  merkleize hp [x.root, uint64Chunk x.slot] (ceilLog2 2)

/-- Root function `hash_tree_root` of a `BeamStateConfig` instance. -/
def BeamStateConfig.htr (hp : Bytes → Bytes → Bytes) (x : BeamStateConfig) : Bytes :=
  merkleize hp [uint32Chunk x.num_validators, uint64Chunk x.genesis_time] (ceilLog2 2)

/-- Root function `hash_tree_root` of a `BeamBlockHeader` instance. -/
def BeamBlockHeader.htr (hp : Bytes → Bytes → Bytes) (x : BeamBlockHeader) : Bytes :=
  merkleize hp [uint64Chunk x.slot, uint32Chunk x.proposer_index, x.parent_root,
    x.state_root, x.body_root] (ceilLog2 5)

/-- Root function `hash_tree_root` of a `Mini3SFCheckpoint` instance. -/
def Mini3SFCheckpoint.htr (hp : Bytes → Bytes → Bytes) (x : Mini3SFCheckpoint) : Bytes :=
  merkleize hp [x.root, uint64Chunk x.slot] (ceilLog2 2)

/-- Root function `hash_tree_root` of a `BeamState` instance: Merkleization of the nine
field roots in declared order, with the collection fields rooted through
their list/bitlist rules under the declared LIMITs. -/
def BeamState.htr (hp : Bytes → Bytes → Bytes) (s : BeamState) : Bytes :=
  merkleize hp
    [BeamStateConfig.htr hp s.config,
     uint64Chunk s.slot,
     BeamBlockHeader.htr hp s.latest_block_header,
     Mini3SFCheckpoint.htr hp s.latest_justified,
     Mini3SFCheckpoint.htr hp s.latest_finalized,
     listRootBytes32 hp s.historical_block_hashes HistoricalBlockHashesList.LIMIT,
     bitlistRoot hp s.justified_slots JustifiedSlotsBitlist.LIMIT,
     listRootBytes32 hp s.justifications_roots JustificationsRootsList.LIMIT,
     bitlistRoot hp s.justifications_validators JustificationsValidatorsBitlist.LIMIT]
    (ceilLog2 9)

/-- Function `create_beam_state()` of `validate_beam_state_hash.py`: the sample
`BeamState` with zeroed header and checkpoints, `num_validators = 4096`,
and all four collections empty. -/
def createBeamState : BeamState :=
  let checkpoint : Mini3SFCheckpoint := ⟨List.replicate 32 0, 0⟩
  { config := ⟨VALIDATOR_REGISTRY_LIMIT, 0⟩
    slot := 0
    latest_block_header := ⟨0, 0, List.replicate 32 0, List.replicate 32 0, List.replicate 32 0⟩
    latest_justified := checkpoint
    latest_finalized := checkpoint
    historical_block_hashes := []
    justified_slots := []
    justifications_roots := []
    justifications_validators := [] }

/-- The literal comparison digest in `validate_beam_state_hash.py`,
harvested from the Zig implementation. -/
def zigHash : String := "933fc69092f542e467681ac6cf9dae4a616ba5ea9c3c61f93cbcaf0be3548e01"

/-- One lowercase hex digit. -/
def hexDigitChar (n : Nat) : Char := if n < 10 then Char.ofNat (48 + n) else Char.ofNat (87 + n)

/-- Lowercase hex rendering of a byte sequence (`bytes.hex()`). -/
def hashHex (b : Bytes) : String :=
  ⟨b.foldr (fun byte acc => hexDigitChar (byte / 16) :: hexDigitChar (byte % 16) :: acc) []⟩

/-- Function `main()` of `validate_beam_state_hash.py`: computes the hash tree root of
`create_beam_state()`, renders it as lowercase hex, and returns whether it
equals the Zig literal. -/
def mainResult : Bool :=
  hashHex (BeamState.htr sha256Pair createBeamState) == zigHash

/-- The `if __name__ == "__main__":` block calls `main()` and discards its
return value; the process then ends normally (exit status 0). -/
def runMainAndDiscard (_mainRet : Bool) : Nat := 0

/-- The module-level entry point's process exit status. -/
def moduleRun : Nat := runMainAndDiscard mainResult

/-! ## Helper lemmas -/

theorem littleEndianBytes_length (k : Nat) : ∀ v, (littleEndianBytes k v).length = k := by
  induction k with
  | zero => intro v; rfl
  | succ k ih => intro v; simp [littleEndianBytes, ih]

theorem uint64Chunk_length (v : Nat) : (uint64Chunk v).length = 32 := by
  simp [uint64Chunk, littleEndianBytes_length]

theorem uint32Chunk_length (v : Nat) : (uint32Chunk v).length = 32 := by
  simp [uint32Chunk, littleEndianBytes_length]

theorem sha256_length (msg : Bytes) : (sha256 msg).length = 32 := by
  simp [sha256, stateToBytes, wordBytesBE]

theorem sha256Pair_length (x y : Bytes) : (sha256Pair x y).length = 32 :=
  sha256_length _

theorem zeroHash_length (hp : Bytes → Bytes → Bytes) (hl : ∀ x y, (hp x y).length = 32) :
    ∀ n, (zeroHash hp n).length = 32
  | 0 => by simp [zeroHash]
  | n + 1 => by simp [zeroHash, hl]

theorem merkLevel_length (hp : Bytes → Bytes → Bytes) (z : Bytes)
    (hl : ∀ x y, (hp x y).length = 32) :
    ∀ cs, ∀ c ∈ merkLevel hp z cs, c.length = 32
  | [] => by simp [merkLevel]
  | [a] => by simp [merkLevel, hl]
  | a :: b :: rest => by
      intro c hc
      simp only [merkLevel, List.mem_cons] at hc
      rcases hc with hc | hc
      · subst hc; exact hl a b
      · exact merkLevel_length hp z hl rest c hc

theorem merkleizeFrom_length (hp : Bytes → Bytes → Bytes) (hl : ∀ x y, (hp x y).length = 32) :
    ∀ (steps level : Nat) (cs : List Bytes), (∀ c ∈ cs, c.length = 32) →
      (merkleizeFrom hp level steps cs).length = 32
  | 0, level, cs, hc => by
      cases cs with
      | nil => simpa [merkleizeFrom] using zeroHash_length hp hl level
      | cons c rest => simpa [merkleizeFrom] using hc c (by simp)
  | steps + 1, level, cs, hc => by
      simp only [merkleizeFrom]
      exact merkleizeFrom_length hp hl steps (level + 1) _ (merkLevel_length hp _ hl cs)

theorem merkleize32_length (cs : List Bytes) (depth : Nat) (hc : ∀ c ∈ cs, c.length = 32) :
    (merkleize sha256Pair cs depth).length = 32 :=
  merkleizeFrom_length sha256Pair sha256Pair_length depth 0 cs hc

theorem listRootBytes32_length (elems : List Bytes) (limit : Nat) :
    (listRootBytes32 sha256Pair elems limit).length = 32 :=
  sha256Pair_length _ _

theorem bitlistRoot_length (bits : List Bool) (limit : Nat) :
    (bitlistRoot sha256Pair bits limit).length = 32 :=
  sha256Pair_length _ _

theorem merkleizeFrom_nil (hp : Bytes → Bytes → Bytes) :
    ∀ (steps level : Nat), merkleizeFrom hp level steps [] = zeroHash hp (level + steps)
  | 0, level => by simp [merkleizeFrom]
  | steps + 1, level => by
      simp only [merkleizeFrom, merkLevel]
      rw [merkleizeFrom_nil hp steps (level + 1)]
      congr 1
      omega

/-! ## Claim theorems -/

/-- C1: `main()` returns True if and only if the lowercase hex rendering of
`hash_tree_root` applied to the `BeamState` built by `create_beam_state()`
equals the literal comparison string harvested from the Zig implementation,
and returns False otherwise. -/
theorem c1_main_iff_digest_matches :
    mainResult = true ↔ hashHex (BeamState.htr sha256Pair createBeamState) = zigHash := by
  simp [mainResult]

/-- C2 counterexample: the literal comparison digest in
`validate_beam_state_hash.py` is not 66 hex characters long (it has 64),
so it is not 33 bytes of hex digits. -/
theorem c2_counterexample_not_66_chars : ¬ (zigHash.data.length = 66) := by decide

/-- C2 (amended): the literal comparison digest is 64 hex characters,
i.e. 32 bytes, all lowercase hex digits, with a trailing "01" (its first
two characters are "93", not "01"). -/
theorem c2_digest_literal_shape :
    zigHash.data.length = 64 ∧
    (zigHash.data.all fun c => c.isDigit || ('a' ≤ c && c ≤ 'f')) = true ∧
    zigHash.data.take 2 = ['9', '3'] ∧
    zigHash.data.drop 62 = ['0', '1'] := by decide

/-- C3: `hash_tree_root` of an empty `List[Bytes32, LIMIT]` equals
`hash(Z[depth], serialize_uint64_le(0))` with `depth = ceil(log2 LIMIT)`
chunk levels and the 8-byte little-endian length 0 zero-padded to a full
chunk mixed in as the right sibling — for every pair-hash primitive and
every capacity, and in particular for the empty `HistoricalBlockHashesList`
constructed by `create_beam_state` (depth 18). -/
theorem c3_empty_list_root :
    (∀ (hp : Bytes → Bytes → Bytes) (limit : Nat),
       listRootBytes32 hp [] limit = hp (zeroHash hp (ceilLog2 limit)) (uint64Chunk 0)) ∧
    (∀ hp : Bytes → Bytes → Bytes,
       listRootBytes32 hp createBeamState.historical_block_hashes HistoricalBlockHashesList.LIMIT =
         hp (zeroHash hp 18) (uint64Chunk 0)) := by
  have base : ∀ (hp : Bytes → Bytes → Bytes) (limit : Nat),
      listRootBytes32 hp [] limit = hp (zeroHash hp (ceilLog2 limit)) (uint64Chunk 0) := by
    intro hp limit
    simp only [listRootBytes32, merkleize, mixLength, List.length_nil, uint64Chunk]
    rw [merkleizeFrom_nil hp (ceilLog2 limit) 0, Nat.zero_add]
  refine ⟨base, fun hp => ?_⟩
  have h18 : ceilLog2 HistoricalBlockHashesList.LIMIT = 18 := by decide
  simpa [h18] using base hp HistoricalBlockHashesList.LIMIT

/-- C5: the declared capacity constants are threaded through unchanged:
`VALIDATOR_REGISTRY_LIMIT = 1 <<< 12 = 4096` is the LIMIT of
`JustificationsValidatorsBitlist`, and `HISTORICAL_ROOTS_LIMIT = 1 <<< 18 =
262144` is the LIMIT of `JustifiedSlotsBitlist`, `HistoricalBlockHashesList`
and `JustificationsRootsList`. -/
theorem c5_capacity_constants :
    VALIDATOR_REGISTRY_LIMIT = 1 <<< 12 ∧ VALIDATOR_REGISTRY_LIMIT = 4096 ∧
    JustificationsValidatorsBitlist.LIMIT = VALIDATOR_REGISTRY_LIMIT ∧
    HISTORICAL_ROOTS_LIMIT = 1 <<< 18 ∧ HISTORICAL_ROOTS_LIMIT = 262144 ∧
    JustifiedSlotsBitlist.LIMIT = HISTORICAL_ROOTS_LIMIT ∧
    HistoricalBlockHashesList.LIMIT = HISTORICAL_ROOTS_LIMIT ∧
    JustificationsRootsList.LIMIT = HISTORICAL_ROOTS_LIMIT :=
  ⟨rfl, by decide, rfl, rfl, by decide, rfl, rfl, rfl⟩

/-- C6: `hash_tree_root` is deterministic — for every pair of structurally
equal `SimpleTest` instances (in particular `slot = 0`,
`proposer_index = 0`), repeated calls yield identical 32-byte digests. -/
theorem c6_deterministic_simple (c₁ c₂ : SimpleTest) (hEq : c₁ = c₂) :
    SimpleTest.htr sha256Pair c₁ = SimpleTest.htr sha256Pair c₂ ∧
    (SimpleTest.htr sha256Pair c₁).length = 32 := by
  subst hEq
  refine ⟨rfl, merkleize32_length _ _ ?_⟩
  simp [List.forall_mem_cons, uint64Chunk_length, uint32Chunk_length]

/-- C6 witness: the theorem applied to the concrete instance constructed by
`test_simple_container` (`slot = Uint64(0)`, `proposer_index = Uint32(0)`). -/
theorem c6_witness :
    SimpleTest.htr sha256Pair ⟨0, 0⟩ = SimpleTest.htr sha256Pair ⟨0, 0⟩ ∧
    (SimpleTest.htr sha256Pair ⟨0, 0⟩).length = 32 :=
  c6_deterministic_simple ⟨0, 0⟩ ⟨0, 0⟩ rfl

/-- C7: `hash_tree_root` is total over the instances the two scripts
construct — each of the five calls (`SimpleTest`, `ConfigTest`,
`BlockHeaderTest`, `CheckpointTest`, and the full `BeamState` of
`create_beam_state()`) returns a 32-byte digest. -/
theorem c7_total_32_byte_digests :
    (SimpleTest.htr sha256Pair ⟨0, 0⟩).length = 32 ∧
    (ConfigTest.htr sha256Pair ⟨4096, 0⟩).length = 32 ∧
    (BlockHeaderTest.htr sha256Pair
      ⟨0, 0, List.replicate 32 0, List.replicate 32 0, List.replicate 32 0⟩).length = 32 ∧
    (CheckpointTest.htr sha256Pair ⟨List.replicate 32 0, 0⟩).length = 32 ∧
    (BeamState.htr sha256Pair createBeamState).length = 32 := by
  refine ⟨merkleize32_length _ _ ?_, merkleize32_length _ _ ?_, merkleize32_length _ _ ?_,
    merkleize32_length _ _ ?_, merkleize32_length _ _ ?_⟩
  · simp [List.forall_mem_cons, uint64Chunk_length, uint32Chunk_length]
  · simp [List.forall_mem_cons, uint64Chunk_length, uint32Chunk_length]
  · simp [List.forall_mem_cons, uint64Chunk_length, uint32Chunk_length]
  · simp [List.forall_mem_cons, uint64Chunk_length]
  · refine (List.forall_mem_cons.2 ⟨?_, ?_⟩)
    · exact merkleize32_length _ _ (by simp [List.forall_mem_cons, uint64Chunk_length, uint32Chunk_length])
    refine (List.forall_mem_cons.2 ⟨uint64Chunk_length _, ?_⟩)
    refine (List.forall_mem_cons.2 ⟨?_, ?_⟩)
    · exact merkleize32_length _ _ (by simp [List.forall_mem_cons, uint64Chunk_length, uint32Chunk_length, createBeamState])
    refine (List.forall_mem_cons.2 ⟨?_, ?_⟩)
    · exact merkleize32_length _ _ (by simp [List.forall_mem_cons, uint64Chunk_length, createBeamState])
    refine (List.forall_mem_cons.2 ⟨?_, ?_⟩)
    · exact merkleize32_length _ _ (by simp [List.forall_mem_cons, uint64Chunk_length, createBeamState])
    refine (List.forall_mem_cons.2 ⟨listRootBytes32_length _ _, ?_⟩)
    refine (List.forall_mem_cons.2 ⟨bitlistRoot_length _ _, ?_⟩)
    refine (List.forall_mem_cons.2 ⟨listRootBytes32_length _ _, ?_⟩)
    refine (List.forall_mem_cons.2 ⟨bitlistRoot_length _ _, ?_⟩)
    simp

/-- C8: the container types `ConfigTest`, `BlockHeaderTest` and
`CheckpointTest` of `debug_simple_hash.py` declare field schemas identical
(same names, types and order) to `BeamStateConfig`, `BeamBlockHeader` and
`Mini3SFCheckpoint` of `validate_beam_state_hash.py`, and for instances
with equal field values `hash_tree_root` yields the same digest under
either pair of type definitions. -/
theorem c8_schemas_identical :
    ConfigTestSchema = BeamStateConfigSchema ∧
    BlockHeaderTestSchema = BeamBlockHeaderSchema ∧
    CheckpointTestSchema = Mini3SFCheckpointSchema ∧
    (∀ (hp : Bytes → Bytes → Bytes) (nv gtime : Nat),
       ConfigTest.htr hp ⟨nv, gtime⟩ = BeamStateConfig.htr hp ⟨nv, gtime⟩) ∧
    (∀ (hp : Bytes → Bytes → Bytes) (s p : Nat) (pr sr br : Bytes),
       BlockHeaderTest.htr hp ⟨s, p, pr, sr, br⟩ = BeamBlockHeader.htr hp ⟨s, p, pr, sr, br⟩) ∧
    (∀ (hp : Bytes → Bytes → Bytes) (r : Bytes) (s : Nat),
       CheckpointTest.htr hp ⟨r, s⟩ = Mini3SFCheckpoint.htr hp ⟨r, s⟩) :=
  ⟨rfl, rfl, rfl, fun _ _ _ => rfl, fun _ _ _ _ _ _ => rfl, fun _ _ _ => rfl⟩

/-- C9: `create_beam_state` assigns the single zero-valued
`Mini3SFCheckpoint` (root = 32 zero bytes, slot = 0) to both
`latest_justified` and `latest_finalized`, so the two fields are
structurally equal and their subtree roots coincide. -/
theorem c9_checkpoint_shared :
    createBeamState.latest_justified = createBeamState.latest_finalized ∧
    createBeamState.latest_justified = ⟨List.replicate 32 0, 0⟩ ∧
    Mini3SFCheckpoint.htr sha256Pair createBeamState.latest_justified =
      Mini3SFCheckpoint.htr sha256Pair createBeamState.latest_finalized :=
  ⟨rfl, rfl, rfl⟩

/-- C10: the return value of `main()` is discarded at the module-level entry
point — the process exit status is 0 and does not depend on whether the
computed digest matched the literal comparison hash. -/
theorem c10_exit_status_discards_result (b₁ b₂ : Bool) :
    runMainAndDiscard b₁ = runMainAndDiscard b₂ ∧ moduleRun = 0 :=
  ⟨rfl, rfl⟩

set_option maxRecDepth 1000000 in
set_option maxHeartbeats 4000000 in
/-- C4: two structurally distinct empty-collection types with different
LIMITs produce different digests despite both having zero elements — the
root of the empty `JustificationsValidatorsBitlist` (LIMIT 4096, zero-hash
depth 4) differs from the root of the empty `JustifiedSlotsBitlist`
(LIMIT 262144, zero-hash depth 10). -/
theorem c4_distinct_empty_bitlist_roots :
    bitlistRoot sha256Pair [] JustificationsValidatorsBitlist.LIMIT ≠
      bitlistRoot sha256Pair [] JustifiedSlotsBitlist.LIMIT := by
  decide
